import Mathlib

/-!
Verification of the SwapSmith swap-orchestration core against its
specification.  The definitions below are a shallow embedding of the
TypeScript sources: the DCA scheduler (bot/src/services/dca-scheduler.ts),
the order monitor (bot/src/services/order-monitor.ts), the SideShift HTTP
client (bot/src/services/sideshift-client.ts) and the authenticated
Next.js API routes (admin coin adjustment, swap history, chat history,
user settings).  Timestamps are plain integers: minutes for the DCA
scheduler (the source manipulates Date via setMinutes/setHours) and
milliseconds for the order monitor (the source works in Date.now()
milliseconds).
-/

namespace SwapSmith

/-- Integer timestamps. -/
abbrev Time := Int

/-! ## DCA scheduler data model (bot/src/services/dca-scheduler.ts) -/

/-- A row of the dca_schedules table, with the fields the scheduler reads
and writes.  is_active is an integer flag compared against 1, exactly as
in the drizzle query eq(dcaSchedules.isActive, 1). -/
structure DCASchedule where
  id : Nat
  telegramId : Nat
  fromAsset : String
  fromNetwork : String
  toAsset : String
  toNetwork : String
  amountPerOrder : String
  intervalHours : Int
  nextExecutionAt : Time
  isActive : Nat
  ordersExecuted : Nat
deriving Repr, DecidableEq

/-- A row of the orders table, with the columns written by
executeSchedule. -/
structure OrderRow where
  telegramId : Nat
  sideshiftOrderId : String
  quoteId : String
  fromAsset : String
  fromNetwork : String
  fromAmount : String
  toAsset : String
  toNetwork : String
  settleAmount : String
  depositAddress : String
  depositMemo : Option String
  status : String
deriving Repr, DecidableEq

/-- A row of the watched_orders table (unique on sideshift_order_id). -/
structure WatchedOrderRow where
  telegramId : Nat
  sideshiftOrderId : String
  lastStatus : String
deriving Repr, DecidableEq

/-- The slice of the shared database the DCA scheduler touches. -/
structure DB where
  dcaSchedules : List DCASchedule
  orders : List OrderRow
  watchedOrders : List WatchedOrderRow
deriving Repr, DecidableEq

/-- RETRY_DELAY_MINUTES from dca-scheduler.ts. -/
def RETRY_DELAY_MINUTES : Int := 5

/-- MAX_PROCESSING_TIME_MINUTES from dca-scheduler.ts. -/
def MAX_PROCESSING_TIME_MINUTES : Int := 10

/-- The where-clause of the claim query: is_active = 1 and
next_execution_at <= now. -/
def dueFilter (now : Time) (s : DCASchedule) : Bool :=
  s.isActive == 1 && decide (s.nextExecutionAt ≤ now)

/-- The claim transaction inside DCAScheduler.processSchedules: select the
due schedules FOR UPDATE SKIP LOCKED, and, if any were found, set their
next_execution_at to the lock sentinel now + MAX_PROCESSING_TIME_MINUTES.
The transaction is atomic at the database, so concurrent claim
transactions are modelled by running this function sequentially in either
order; a competitor that overlaps instead of serializing sees the claimed
rows as locked and, under SKIP LOCKED, selects nothing for them, which
coincides with the serialized outcome. -/
def processSchedulesClaimTx (db : DB) (now : Time) : DB × List DCASchedule :=
  let schedules := db.dcaSchedules.filter (dueFilter now)
  if schedules.isEmpty then (db, schedules)
  else
    let lockTime := now + MAX_PROCESSING_TIME_MINUTES
    let ids := schedules.map (fun s => s.id)
    let updated := db.dcaSchedules.map (fun s =>
      if ids.contains s.id then { s with nextExecutionAt := lockTime } else s)
    ({ db with dcaSchedules := updated }, schedules)

/-- Result of sideshift createQuote as consumed by executeSchedule: the
quote id, the settle amount, and the optional error field checked by
quote.error. -/
structure QuoteResult where
  id : String
  settleAmount : String
  error : Option String
deriving Repr, DecidableEq

/-- Result of sideshift createOrder as consumed by executeSchedule. -/
structure OrderResult where
  id : String
  depositAddress : String
  depositMemo : Option String
deriving Repr, DecidableEq

/-- A row of the users table as read by getUser. -/
structure UserRow where
  telegramId : Nat
  walletAddress : Option String
deriving Repr, DecidableEq

/-- The collaborators executeSchedule calls out to: the user lookup and
the two aggregator calls.  Errors thrown by the aggregator are modelled
as none. -/
structure DCAEnv where
  getUser : Nat → Option UserRow
  createQuote : String → String → String → String → String → Option QuoteResult
  createOrder : String → String → Option OrderResult

/-- The success transaction at the end of DCAScheduler.executeSchedule:
insert the Order row, insert the WatchedOrder row with
on-conflict-do-nothing on the unique sideshift_order_id, and increment
orders_executed for the schedule.  The source performs no write to
next_execution_at inside this transaction. -/
def executeScheduleTx (db : DB) (s : DCASchedule) (quote : QuoteResult)
    (order : OrderResult) : DB :=
  let newOrder : OrderRow :=
    { telegramId := s.telegramId
      sideshiftOrderId := order.id
      quoteId := quote.id
      fromAsset := s.fromAsset
      fromNetwork := s.fromNetwork
      fromAmount := s.amountPerOrder
      toAsset := s.toAsset
      toNetwork := s.toNetwork
      settleAmount := quote.settleAmount
      depositAddress := order.depositAddress
      depositMemo := order.depositMemo
      status := "pending" }
  let db1 := { db with orders := db.orders ++ [newOrder] }
  let conflict := db1.watchedOrders.any (fun w => w.sideshiftOrderId == order.id)
  let db2 :=
    if conflict then db1
    else { db1 with watchedOrders := db1.watchedOrders ++
      [{ telegramId := s.telegramId, sideshiftOrderId := order.id,
         lastStatus := "pending" }] }
  { db2 with dcaSchedules := db2.dcaSchedules.map (fun t =>
      if t.id == s.id then { t with ordersExecuted := t.ordersExecuted + 1 } else t) }

/-- releaseLock: reschedule at now + intervalHours hours (the source adds
intervalHours via setHours, i.e. 60 * intervalHours minutes). -/
def releaseLock (db : DB) (scheduleId : Nat) (intervalHours : Int) (now : Time) : DB :=
  { db with dcaSchedules := db.dcaSchedules.map (fun t =>
      if t.id == scheduleId then { t with nextExecutionAt := now + 60 * intervalHours } else t) }

/-- scheduleRetry: reschedule at now + RETRY_DELAY_MINUTES. -/
def scheduleRetry (db : DB) (scheduleId : Nat) (now : Time) : DB :=
  { db with dcaSchedules := db.dcaSchedules.map (fun t =>
      if t.id == scheduleId then { t with nextExecutionAt := now + RETRY_DELAY_MINUTES } else t) }

/-- DCAScheduler.executeSchedule for one claimed schedule: load the user
(no wallet address releases the lock), request a quote, create the order,
then run the success transaction; any quote or order failure schedules a
retry. -/
def executeSchedule (env : DCAEnv) (db : DB) (s : DCASchedule) (now : Time) : DB :=
  match env.getUser s.telegramId with
  | none => releaseLock db s.id s.intervalHours now
  | some user =>
    match user.walletAddress with
    | none => releaseLock db s.id s.intervalHours now
    | some wallet =>
      match env.createQuote s.fromAsset s.fromNetwork s.toAsset s.toNetwork s.amountPerOrder with
      | none => scheduleRetry db s.id now
      | some quote =>
        if quote.error.isSome then scheduleRetry db s.id now
        else
          match env.createOrder quote.id wallet with
          | none => scheduleRetry db s.id now
          | some order =>
            if order.id == "" then scheduleRetry db s.id now
            else executeScheduleTx db s quote order

/-- Two scheduler instances running processSchedules over the same
database: instance A claims at time nowA, instance B claims at time nowB,
and then every claimed schedule is executed.  Returns the final database
together with the two claimed sets. -/
def runTwoInstances (env : DCAEnv) (db : DB) (nowA nowB : Time) :
    DB × List DCASchedule × List DCASchedule :=
  let a := processSchedulesClaimTx db nowA
  let b := processSchedulesClaimTx a.1 nowB
  let final := (a.2 ++ b.2).foldl (fun d t => executeSchedule env d t nowB) b.1
  (final, a.2, b.2)

/-! ## Order monitor (bot/src/services/order-monitor.ts) -/

/-- Terminal statuses: orders in these states stop being tracked. -/
def TERMINAL_STATUSES : List String := ["settled", "expired", "refunded", "failed"]

/-- Maximum concurrent API calls to SideShift. -/
def MAX_CONCURRENT : Nat := 5

/-- Polling interval in milliseconds for an order of the given age in
milliseconds (getBackoffInterval). -/
def getBackoffInterval (ageMs : Int) : Int :=
  if ageMs < 5 * 60000 then 15000
  else if ageMs < 30 * 60000 then 60000
  else if ageMs < 2 * 3600000 then 5 * 60000
  else 15 * 60000

/-- An entry of the monitor's in-memory tracked map. -/
structure TrackedOrder where
  orderId : String
  telegramId : Nat
  createdAt : Int
  lastChecked : Int
  lastStatus : String
deriving Repr, DecidableEq

/-- The monitor's in-memory state: the tracked map (a JavaScript Map in
insertion order, keyed by orderId) and the in-flight poll counter. -/
structure MonitorState where
  tracked : List TrackedOrder
  activePollCount : Nat
deriving Repr, DecidableEq

/-- The calls the monitor makes through OrderMonitorDeps, plus the
StatusLog append named by the specification.  OrderMonitorDeps exposes no
StatusLog operation, so no code path below ever emits recordStatusLog;
the constructor is part of the persistence vocabulary so that its absence
from a trace can be stated. -/
inductive MonitorEffect where
  | updateOrderStatus (orderId newStatus : String)
  | updateWatchedOrderStatus (orderId newStatus : String)
  | onStatusChange (telegramId : Nat) (orderId oldStatus newStatus : String)
  | addWatchedOrderCall (telegramId : Nat) (orderId initialStatus : String)
  | recordStatusLog (orderId oldStatus newStatus : String)
deriving Repr, DecidableEq

/-- True exactly for the recordStatusLog effect. -/
def MonitorEffect.isStatusLog : MonitorEffect → Bool
  | .recordStatusLog _ _ _ => true
  | _ => false

/-- Modelled from the spec: the deps.addWatchedOrder implementation (the
bot database layer is not part of these sources) inserts a WatchedOrder
row with on-conflict-do-nothing on the unique sideshift_order_id, in the
same way the DCA scheduler inserts watched_orders rows inline. -/
def addWatchedOrder (rows : List WatchedOrderRow) (telegramId : Nat)
    (orderId initialStatus : String) : List WatchedOrderRow :=
  if rows.any (fun w => w.sideshiftOrderId == orderId) then rows
  else rows ++ [{ telegramId := telegramId, sideshiftOrderId := orderId,
                  lastStatus := initialStatus }]

/-- OrderMonitor.trackOrder: an already-tracked order id returns at once;
otherwise a fresh entry (lastChecked 0, lastStatus pending) is added to
the map and a watched_orders row is persisted through deps.addWatchedOrder.
Returns the new monitor state, the new watched_orders table and the
emitted effects. -/
def trackOrder (m : MonitorState) (rows : List WatchedOrderRow)
    (orderId : String) (telegramId : Nat) (createdAt : Int) :
    MonitorState × List WatchedOrderRow × List MonitorEffect :=
  if m.tracked.any (fun o => o.orderId == orderId) then (m, rows, [])
  else
    let entry : TrackedOrder :=
      { orderId := orderId, telegramId := telegramId, createdAt := createdAt,
        lastChecked := 0, lastStatus := "pending" }
    ({ m with tracked := m.tracked ++ [entry] },
     addWatchedOrder rows telegramId orderId "pending",
     [MonitorEffect.addWatchedOrderCall telegramId orderId "pending"])

/-- OrderMonitor.untrackOrder: delete from the in-memory map only. -/
def untrackOrder (m : MonitorState) (orderId : String) : MonitorState :=
  { m with tracked := m.tracked.filter (fun o => o.orderId != orderId) }

/-- The aggregator snapshot consumed by pollOrder (the status field of
SideShiftOrderStatus is all the monitor inspects). -/
structure AggregatorSnapshot where
  id : String
  status : String
deriving Repr, DecidableEq

/-- Outcome of deps.getOrderStatus for one poll: a validated snapshot, or
a thrown error (any HTTP failure, including 429 rate limiting with its
Retry-After value). -/
inductive PollResult where
  | ok (st : AggregatorSnapshot)
  | httpError (httpStatus : Nat) (retryAfter : Option Nat)
deriving Repr, DecidableEq

/-- OrderMonitor.pollOrder on the tracked order o.  On a thrown error the
catch block only logs: the entry keeps its lastChecked and lastStatus and
stays tracked, and no pause state of any kind is recorded.  On success
lastChecked is set to now; if the status changed the two persistence
updates and the single onStatusChange callback fire, and a terminal new
status untracks the order. -/
def pollOrder (m : MonitorState) (o : TrackedOrder) (res : PollResult)
    (now : Int) : MonitorState × List MonitorEffect :=
  match res with
  | .httpError _ _ => (m, [])
  | .ok st =>
    let o1 := { o with lastChecked := now }
    let newStatus := st.status
    let oldStatus := o.lastStatus
    if newStatus != oldStatus then
      let o2 := { o1 with lastStatus := newStatus }
      let m1 := { m with tracked := m.tracked.map (fun t =>
        if t.orderId == o.orderId then o2 else t) }
      let effects := [MonitorEffect.updateOrderStatus o.orderId newStatus,
                      MonitorEffect.updateWatchedOrderStatus o.orderId newStatus,
                      MonitorEffect.onStatusChange o.telegramId o.orderId oldStatus newStatus]
      if TERMINAL_STATUSES.contains newStatus then (untrackOrder m1 o.orderId, effects)
      else (m1, effects)
    else
      ({ m with tracked := m.tracked.map (fun t =>
         if t.orderId == o.orderId then o1 else t) }, [])

/-- The selection step of OrderMonitor.tick: every tracked order whose
time since lastChecked has reached the age-based backoff interval. -/
def tickSelect (m : MonitorState) (now : Int) : List TrackedOrder :=
  m.tracked.filter (fun o =>
    decide (now - o.lastChecked ≥ getBackoffInterval (now - o.createdAt)))

/-- OrderMonitor.tick: the batch of orders actually dispatched to
pollOrder this tick, after the concurrency cap.  The tick has no other
gate: nothing short-circuits it while a rate limit is in force. -/
def tickBatch (m : MonitorState) (now : Int) : List TrackedOrder :=
  (tickSelect m now).take (MAX_CONCURRENT - m.activePollCount)

/-! ## SideShift client error surface (bot/src/services/sideshift-client.ts) -/

/-- The error object SideShift puts in a response body, as reached by
error.response.data.error in the catch blocks. -/
structure SideShiftErrorBody where
  code : Option String
  message : Option String
deriving Repr, DecidableEq

/-- A 4xx/5xx axios failure as observed by the catch blocks: the HTTP
status, the parsed body error (if any), and the Retry-After header value
(if any). -/
structure AxiosHttpError where
  httpStatus : Nat
  bodyError : Option SideShiftErrorBody
  retryAfter : Option Nat
deriving Repr, DecidableEq

/-- JavaScript a || b over the optional-string chain
error.response?.data?.error?.message: an absent or empty message falls
through to the fallback. -/
def jsOrElse (s : Option String) (fallback : String) : String :=
  match s with
  | some v => if v == "" then fallback else v
  | none => fallback

/-- The message of the body error, if a body error is present. -/
def AxiosHttpError.bodyMessage (e : AxiosHttpError) : Option String :=
  match e.bodyError with
  | some b => b.message
  | none => none

/-- What getOrderStatus throws on a 4xx/5xx response: a plain Error whose
message is error.response?.data?.error?.message || a fixed fallback. -/
def surfaceGetOrderStatusError (e : AxiosHttpError) : String :=
  jsOrElse e.bodyMessage "Failed to get order status"

/-- What createOrder throws on a 4xx/5xx response. -/
def surfaceCreateOrderError (e : AxiosHttpError) : String :=
  jsOrElse e.bodyMessage "Failed to create order"

/-- What createQuote throws on a 4xx/5xx response; the fallback mentions
the two assets. -/
def surfaceCreateQuoteError (fromAsset toAsset : String) (e : AxiosHttpError) : String :=
  jsOrElse e.bodyMessage ("Failed to create quote for " ++ fromAsset ++ " to " ++ toAsset)

/-- What createCheckout throws on a 4xx/5xx response. -/
def surfaceCreateCheckoutError (e : AxiosHttpError) : String :=
  jsOrElse e.bodyMessage "Failed to create checkout"

/-! ## Bearer tokens and the admin coin adjustment route
(frontend/app/api/admin/coins/adjust/route.ts and lib/adminAuth's
verifyAdminToken) -/

/-- A bearer token as the routes can observe it: the outcome of provider
verification (adminAuth.verifyIdToken), the dot-separated segments, and
the uid recoverable by an unverified base64 decode of the payload segment
(user_id, sub or uid; none when the decode throws or yields no uid). -/
structure Token where
  verifiedUid : Option String
  parts : List String
  payloadUid : Option String
deriving Repr, DecidableEq

/-- decodeToken from the admin coins adjust route: provider verification
first; when it throws, fall back to splitting the raw JWT and reading the
uid out of the unverified payload; only a token failing both yields
none. -/
def decodeToken (t : Token) : Option String :=
  match t.verifiedUid with
  | some uid => some uid
  | none =>
    if t.parts.length != 3 then none
    else t.payloadUid

/-- The single database write of the adjust route. -/
inductive CoinAdjustEffect where
  | adjustTestnetCoins (adminUid : String) (targetUserId : Nat)
      (action : String) (amount : Int)
deriving Repr, DecidableEq

/-- The request body and Authorization header of POST
/api/admin/coins/adjust.  bearerToken is none when the Authorization
header is missing or does not start with Bearer; targetUserId is none
when the field is absent or not a number; amount is none when the field
is not a number. -/
structure AdjustRequest where
  bearerToken : Option Token
  targetUserId : Option Nat
  action : String
  amount : Option Int
  note : Option String
deriving Repr, DecidableEq

/-- The lookups the adjust route performs: getAdminByFirebaseUid and the
raw users query for firebase_uid. -/
structure AdminEnv where
  isAdmin : String → Bool
  userFirebaseUid : Nat → Option String

/-- POST /api/admin/coins/adjust: 401 without a decodable bearer token,
403 for a non-admin uid, 400 on a falsy targetUserId or unknown action,
400 when action is gift or deduct and amount is not a positive number,
404 when the target user has no firebase_uid, and otherwise the
adjustTestnetCoins write with amount 0 substituted when action is
reset. -/
def postAdjust (env : AdminEnv) (req : AdjustRequest) : Nat × List CoinAdjustEffect :=
  match req.bearerToken with
  | none => (401, [])
  | some tok =>
    match decodeToken tok with
    | none => (401, [])
    | some uid =>
      if !env.isAdmin uid then (403, [])
      else
        let targetFalsy : Bool :=
          match req.targetUserId with
          | none => true
          | some n => n == 0
        if targetFalsy || !(["gift", "deduct", "reset"].contains req.action) then (400, [])
        else
          let amountInvalid : Bool :=
            match req.amount with
            | none => true
            | some a => decide (a ≤ 0)
          if (req.action == "gift" || req.action == "deduct") && amountInvalid then (400, [])
          else
            match req.targetUserId with
            | none => (400, [])
            | some tid =>
              match env.userFirebaseUid tid with
              | none => (404, [])
              | some _ =>
                let amt : Int := if req.action == "reset" then 0 else req.amount.getD 0
                (200, [CoinAdjustEffect.adjustTestnetCoins uid tid req.action amt])

/-! ## User-scoped routes (swap history, chat history, user settings) -/

/-- JavaScript falsiness of an optional string field: absent or empty. -/
def jsFalsyStr (s : Option String) : Bool :=
  match s with
  | some v => v == ""
  | none => true

/-- The pieces of a request the user-scoped handlers inspect. -/
structure UserScopedRequest where
  bearerToken : Option Token
  userId : Option String
  sessionId : Option String
  role : Option String
  content : Option String
  walletAddress : Option String
deriving Repr, DecidableEq

/-- The user-data accesses the user-scoped handlers can perform. -/
inductive DataEffect where
  | readSwapHistory (userId : String) (limit : Int)
  | readChatHistory (userId : String)
  | addChatMessage (userId roleField contentField : String)
  | clearChatHistory (userId : String)
  | readUserSettings (userId : String)
  | writeUserSettings (userId : String)
deriving Repr, DecidableEq

/-- The authentication prelude shared by the user-scoped routes: 401
without a Bearer header, adminAuth.verifyIdToken with 401 on failure (no
unverified fallback here), then the verified uid. -/
def userScopedAuth (req : UserScopedRequest) : Option String :=
  match req.bearerToken with
  | none => none
  | some tok => tok.verifiedUid

/-- GET /api/swap-history: auth, then userId required, then the IDOR
check, then the history read. -/
def swapHistoryGET (req : UserScopedRequest) (limit : Int) : Nat × List DataEffect :=
  match userScopedAuth req with
  | none => (401, [])
  | some authUid =>
    if jsFalsyStr req.userId then (400, [])
    else
      let uid := req.userId.getD ""
      if uid != authUid then (403, [])
      else (200, [DataEffect.readSwapHistory uid limit])

/-- POST /api/chat/history: auth, then userId, role and content required,
then the IDOR check, then the role whitelist, then the message insert. -/
def chatHistoryPOST (req : UserScopedRequest) : Nat × List DataEffect :=
  match userScopedAuth req with
  | none => (401, [])
  | some authUid =>
    if jsFalsyStr req.userId || jsFalsyStr req.role || jsFalsyStr req.content then (400, [])
    else
      let uid := req.userId.getD ""
      if uid != authUid then (403, [])
      else if !(["user", "assistant"].contains (req.role.getD "")) then (400, [])
      else (201, [DataEffect.addChatMessage uid (req.role.getD "") (req.content.getD "")])

/-- DELETE /api/chat/history: auth, userId required, IDOR check, then the
clear. -/
def chatHistoryDELETE (req : UserScopedRequest) : Nat × List DataEffect :=
  match userScopedAuth req with
  | none => (401, [])
  | some authUid =>
    if jsFalsyStr req.userId then (400, [])
    else
      let uid := req.userId.getD ""
      if uid != authUid then (403, [])
      else (200, [DataEffect.clearChatHistory uid])

/-- GET /api/user/settings: auth, then the DATABASE_URL guard, then
userId required, then the IDOR check, then the settings read. -/
def userSettingsGET (hasDatabaseUrl : Bool) (req : UserScopedRequest) : Nat × List DataEffect :=
  match userScopedAuth req with
  | none => (401, [])
  | some authUid =>
    if !hasDatabaseUrl then (500, [])
    else
      if jsFalsyStr req.userId then (400, [])
      else
        let uid := req.userId.getD ""
        if uid != authUid then (403, [])
        else (200, [DataEffect.readUserSettings uid])

/-- POST /api/user/settings: auth, the DATABASE_URL guard, userId
required (falsy check on the body field), the IDOR check, then the
upsert. -/
def userSettingsPOST (hasDatabaseUrl : Bool) (req : UserScopedRequest) : Nat × List DataEffect :=
  match userScopedAuth req with
  | none => (401, [])
  | some authUid =>
    if !hasDatabaseUrl then (500, [])
    else
      if jsFalsyStr req.userId then (400, [])
      else
        let uid := req.userId.getD ""
        if uid != authUid then (403, [])
        else (200, [DataEffect.writeUserSettings uid])

/-! ## Theorems -/

/-- C8: the polling interval computed from an order's age A equals 15
seconds for A below 5 minutes, 60 seconds from 5 to 30 minutes, 5 minutes
from 30 minutes to 2 hours, and 15 minutes from 2 hours on (all in
milliseconds). -/
theorem c8_backoff_interval_table (A : Int) :
    (A < 5 * 60 * 1000 → getBackoffInterval A = 15 * 1000) ∧
    (5 * 60 * 1000 ≤ A → A < 30 * 60 * 1000 → getBackoffInterval A = 60 * 1000) ∧
    (30 * 60 * 1000 ≤ A → A < 2 * 60 * 60 * 1000 → getBackoffInterval A = 5 * 60 * 1000) ∧
    (2 * 60 * 60 * 1000 ≤ A → getBackoffInterval A = 15 * 60 * 1000) := by
  unfold getBackoffInterval
  refine ⟨?_, ?_, ?_, ?_⟩ <;> intros <;> split_ifs <;> omega

/-- Witness for C8 at one concrete age in each band. -/
theorem c8_backoff_interval_table_witness :
    getBackoffInterval 0 = 15 * 1000 ∧ getBackoffInterval 300000 = 60 * 1000 ∧
    getBackoffInterval 1800000 = 5 * 60 * 1000 ∧
    getBackoffInterval 7200000 = 15 * 60 * 1000 :=
  ⟨(c8_backoff_interval_table 0).1 (by decide),
   (c8_backoff_interval_table 300000).2.1 (by decide) (by decide),
   (c8_backoff_interval_table 1800000).2.2.1 (by decide) (by decide),
   (c8_backoff_interval_table 7200000).2.2.2 (by decide)⟩

/-- Order X1, created at t=0, polled for the rate-limit scenario. -/
def c3Order : TrackedOrder :=
  { orderId := "X1", telegramId := 1, createdAt := 0, lastChecked := 0,
    lastStatus := "pending" }

/-- A monitor tracking only X1 with no poll in flight. -/
def c3Monitor : MonitorState := { tracked := [c3Order], activePollCount := 0 }

/-- C3: evaluating the monitor at the failing input.  A poll of X1 at
t=100000 ms answered with HTTP 429 and Retry-After 30 leaves the monitor
state completely unchanged: no pausedUntil (or any other pause state)
exists to be set.  The tick at t=115000 ms, inside the claimed 30-second
pause window ending at t=130000 ms, selects and dispatches X1 again, so a
poll is issued during the window. -/
theorem c3_monitor_polls_during_429_pause :
    pollOrder c3Monitor c3Order (PollResult.httpError 429 (some 30)) 100000 =
      (c3Monitor, []) ∧
    tickBatch c3Monitor 115000 = [c3Order] := by decide

/-- Order X1 at status processing, tracked for the settlement scenario. -/
def c5Order : TrackedOrder :=
  { orderId := "X1", telegramId := 7, createdAt := 0, lastChecked := 90000,
    lastStatus := "processing" }

/-- A monitor tracking only the processing order X1. -/
def c5Monitor : MonitorState := { tracked := [c5Order], activePollCount := 0 }

/-- The poll of X1 that observes settled at t=300000 ms. -/
def c5Poll : MonitorState × List MonitorEffect :=
  pollOrder c5Monitor c5Order (PollResult.ok { id := "X1", status := "settled" }) 300000

/-- C5 counterexample: the poll that observes X1 entering settled does
emit effects (the transition is observed and handled), but none of them
is a StatusLog record: OrderMonitorDeps has no StatusLog operation and
pollOrder writes no such audit row. -/
theorem c5_counterexample_no_statuslog_record :
    c5Poll.2 ≠ [] ∧ c5Poll.2.any MonitorEffect.isStatusLog = false := by decide

/-- C5 amended: a poll observing a transition into a terminal status
updates the Order row and the WatchedOrder row to the terminal status,
invokes the single subscribed status-change callback exactly once for the
transition, and removes every entry for the order from the tracked set,
so no later tick ever selects it again; no StatusLog write occurs. -/
theorem c5_terminal_poll_effects (m : MonitorState) (o : TrackedOrder)
    (st : AggregatorSnapshot) (now : Int)
    (hterm : TERMINAL_STATUSES.contains st.status = true)
    (hchange : st.status ≠ o.lastStatus) :
    (pollOrder m o (PollResult.ok st) now).2 =
      [MonitorEffect.updateOrderStatus o.orderId st.status,
       MonitorEffect.updateWatchedOrderStatus o.orderId st.status,
       MonitorEffect.onStatusChange o.telegramId o.orderId o.lastStatus st.status] ∧
    (pollOrder m o (PollResult.ok st) now).1.tracked.all
      (fun t => t.orderId != o.orderId) = true ∧
    (∀ now2, (tickSelect (pollOrder m o (PollResult.ok st) now).1 now2).all
      (fun t => t.orderId != o.orderId) = true) := by
  have hne : (st.status != o.lastStatus) = true := by
    simpa [bne_iff_ne] using hchange
  have hmem : st.status ∈ TERMINAL_STATUSES := by
    simpa using hterm
  have hif : pollOrder m o (PollResult.ok st) now =
      (untrackOrder { m with tracked := m.tracked.map (fun t =>
          if t.orderId == o.orderId then
            { o with lastChecked := now, lastStatus := st.status } else t) } o.orderId,
       [MonitorEffect.updateOrderStatus o.orderId st.status,
        MonitorEffect.updateWatchedOrderStatus o.orderId st.status,
        MonitorEffect.onStatusChange o.telegramId o.orderId o.lastStatus st.status]) := by
    simp [pollOrder, hne, hmem]
  refine ⟨?_, ?_, ?_⟩
  · rw [hif]
  · rw [hif]
    simp [untrackOrder, List.all_eq_true, List.mem_filter]
  · intro now2
    rw [hif]
    simp [untrackOrder, tickSelect, List.all_eq_true, List.mem_filter]

/-- Witness for C5 amended at the concrete settlement poll. -/
theorem c5_terminal_poll_effects_witness :
    c5Poll.2 =
      [MonitorEffect.updateOrderStatus c5Order.orderId "settled",
       MonitorEffect.updateWatchedOrderStatus c5Order.orderId "settled",
       MonitorEffect.onStatusChange c5Order.telegramId c5Order.orderId
         c5Order.lastStatus "settled"] ∧
    c5Poll.1.tracked.all (fun t => t.orderId != c5Order.orderId) = true ∧
    (tickSelect c5Poll.1 400000).all (fun t => t.orderId != c5Order.orderId) = true := by
  have h := c5_terminal_poll_effects c5Monitor c5Order
    { id := "X1", status := "settled" } 300000 (by decide) (by decide)
  exact ⟨h.1, h.2.1, h.2.2 400000⟩

/-- C6 counterexample: a 429 carrying Retry-After 30 and a plain 400,
both without a body error, surface the very same error value (a bare
message string), so no caller-side function can read the HTTP status (or
the code, or Retry-After) back out of the surfaced error. -/
theorem c6_counterexample_error_not_structured :
    surfaceGetOrderStatusError
        { httpStatus := 429, bodyError := none, retryAfter := some 30 } =
      surfaceGetOrderStatusError
        { httpStatus := 400, bodyError := none, retryAfter := none } ∧
    ¬ ∃ recover : String → Nat, ∀ e : AxiosHttpError,
        recover (surfaceGetOrderStatusError e) = e.httpStatus := by
  constructor
  · rfl
  · rintro ⟨recover, h⟩
    have h1 := h { httpStatus := 429, bodyError := none, retryAfter := some 30 }
    have h2 := h { httpStatus := 400, bodyError := none, retryAfter := none }
    simp [surfaceGetOrderStatusError, jsOrElse, AxiosHttpError.bodyMessage] at h1 h2
    omega

/-- C6 amended: on a 4xx/5xx response every aggregator client call
surfaces only an Error message string, the body's error.message when
non-empty and a fixed per-call fallback otherwise; the surfaced value
depends on nothing but the body message, so errors differing only in
HTTP status, code or Retry-After are indistinguishable to the caller. -/
theorem c6_errors_depend_only_on_body_message (e1 e2 : AxiosHttpError) (f t : String)
    (hmsg : e1.bodyMessage = e2.bodyMessage) :
    surfaceGetOrderStatusError e1 = surfaceGetOrderStatusError e2 ∧
    surfaceCreateOrderError e1 = surfaceCreateOrderError e2 ∧
    surfaceCreateQuoteError f t e1 = surfaceCreateQuoteError f t e2 ∧
    surfaceCreateCheckoutError e1 = surfaceCreateCheckoutError e2 := by
  simp [surfaceGetOrderStatusError, surfaceCreateOrderError, surfaceCreateQuoteError,
    surfaceCreateCheckoutError, hmsg]

/-- Witness for C6 amended: a 429 and a 503 with the same body message
surface identical errors for all four calls. -/
theorem c6_errors_depend_only_on_body_message_witness :
    surfaceGetOrderStatusError
        { httpStatus := 429, bodyError := some { code := some "RATE_LIMIT", message := some "slow down" }, retryAfter := some 30 } =
      surfaceGetOrderStatusError
        { httpStatus := 503, bodyError := some { code := none, message := some "slow down" }, retryAfter := none } :=
  (c6_errors_depend_only_on_body_message
    { httpStatus := 429, bodyError := some { code := some "RATE_LIMIT", message := some "slow down" }, retryAfter := some 30 }
    { httpStatus := 503, bodyError := some { code := none, message := some "slow down" }, retryAfter := none }
    "USDC" "BTC" (by decide)).1

/-- The four-step idempotence scenario on one order id: track, track,
untrack, track, returning the final monitor state and watched_orders
table. -/
def c7Run (m : MonitorState) (rows : List WatchedOrderRow) (o : String)
    (u : Nat) (t : Int) : MonitorState × List WatchedOrderRow :=
  let r1 := trackOrder m rows o u t
  let r2 := trackOrder r1.1 r1.2.1 o u t
  let m3 := untrackOrder r2.1 o
  let r4 := trackOrder m3 r2.2.1 o u t
  (r4.1, r4.2.1)

/-- C7: starting from a state that does not contain order o (neither in
the in-memory tracked map nor in watched_orders), the sequence track(o);
track(o); untrack(o); track(o) leaves exactly one watched_orders row for
o and exactly one in-memory tracked entry for o. -/
theorem c7_track_track_untrack_track (m : MonitorState) (rows : List WatchedOrderRow)
    (o : String) (u : Nat) (t : Int)
    (hm : m.tracked.all (fun e => e.orderId != o) = true)
    (hrows : rows.all (fun w => w.sideshiftOrderId != o) = true) :
    (c7Run m rows o u t).1.tracked.countP (fun e => e.orderId == o) = 1 ∧
    (c7Run m rows o u t).2.countP (fun w => w.sideshiftOrderId == o) = 1 := by
  have hm2 : ∀ x ∈ m.tracked, x.orderId ≠ o := by
    intro x hx
    simpa [bne_iff_ne] using List.all_eq_true.mp hm x hx
  have hrows2 : ∀ w ∈ rows, w.sideshiftOrderId ≠ o := by
    intro w hw
    simpa [bne_iff_ne] using List.all_eq_true.mp hrows w hw
  have hany : m.tracked.any (fun e => e.orderId == o) = false := by
    rw [Bool.eq_false_iff]
    intro hcontra
    obtain ⟨x, hx, hbeq⟩ := List.any_eq_true.mp hcontra
    exact hm2 x hx (by simpa [beq_iff_eq] using hbeq)
  have hanyrows : rows.any (fun w => w.sideshiftOrderId == o) = false := by
    rw [Bool.eq_false_iff]
    intro hcontra
    obtain ⟨w, hw, hbeq⟩ := List.any_eq_true.mp hcontra
    exact hrows2 w hw (by simpa [beq_iff_eq] using hbeq)
  have hfilter : m.tracked.filter (fun e => e.orderId != o) = m.tracked := by
    apply List.filter_eq_self.mpr
    intro a ha
    simpa [bne_iff_ne] using hm2 a ha
  have hcount : m.tracked.countP (fun e => e.orderId == o) = 0 := by
    apply List.countP_eq_zero.mpr
    intro a ha
    simpa [beq_iff_eq] using hm2 a ha
  have hcountrows : rows.countP (fun w => w.sideshiftOrderId == o) = 0 := by
    apply List.countP_eq_zero.mpr
    intro a ha
    simpa [beq_iff_eq] using hrows2 a ha
  constructor <;>
    simp [c7Run, trackOrder, untrackOrder, addWatchedOrder, hany, hanyrows,
      List.any_append, List.filter_append, hfilter, List.countP_append, hcount,
      hcountrows]

/-- Witness for C7 on a concrete empty initial state. -/
theorem c7_track_track_untrack_track_witness :
    (c7Run { tracked := [], activePollCount := 0 } [] "X1" 9 1000).1.tracked.countP
      (fun e => e.orderId == "X1") = 1 ∧
    (c7Run { tracked := [], activePollCount := 0 } [] "X1" 9 1000).2.countP
      (fun w => w.sideshiftOrderId == "X1") = 1 :=
  c7_track_track_untrack_track { tracked := [], activePollCount := 0 } [] "X1" 9 1000
    (by decide) (by decide)

/-- C9: on every user-scoped handler (swap history, chat history, user
settings), a request whose userId differs from the authenticated uid
performs no data access at all, and — whenever the earlier gates
(non-empty userId, required chat fields, configured DATABASE_URL) pass —
is rejected with 403. -/
theorem c9_idor_mismatch_rejected (req : UserScopedRequest) (limit : Int)
    (hasDb : Bool) (tok : Token) (authUid uid : String)
    (htok : req.bearerToken = some tok)
    (hver : tok.verifiedUid = some authUid)
    (huid : req.userId = some uid)
    (hne : uid ≠ authUid) :
    (swapHistoryGET req limit).2 = [] ∧
    (uid ≠ "" → swapHistoryGET req limit = (403, [])) ∧
    (chatHistoryPOST req).2 = [] ∧
    (uid ≠ "" → jsFalsyStr req.role = false → jsFalsyStr req.content = false →
      chatHistoryPOST req = (403, [])) ∧
    (chatHistoryDELETE req).2 = [] ∧
    (uid ≠ "" → chatHistoryDELETE req = (403, [])) ∧
    (userSettingsGET hasDb req).2 = [] ∧
    (uid ≠ "" → hasDb = true → userSettingsGET hasDb req = (403, [])) ∧
    (userSettingsPOST hasDb req).2 = [] ∧
    (uid ≠ "" → hasDb = true → userSettingsPOST hasDb req = (403, [])) := by
  have hbne : (uid != authUid) = true := by simpa [bne_iff_ne] using hne
  refine ⟨?_, ?_, ?_, ?_, ?_, ?_, ?_, ?_, ?_, ?_⟩
  · simp [swapHistoryGET, userScopedAuth, htok, hver, huid, hbne, jsFalsyStr,
      apply_ite, ite_self]
  · intro h
    simp [swapHistoryGET, userScopedAuth, htok, hver, huid, hbne, jsFalsyStr, h]
  · simp [chatHistoryPOST, userScopedAuth, htok, hver, huid, hbne, jsFalsyStr,
      apply_ite, ite_self]
  · intro h hr hc
    simp only [jsFalsyStr] at hr hc
    simp [chatHistoryPOST, userScopedAuth, htok, hver, huid, hbne, jsFalsyStr,
      h, hr, hc]
  · simp [chatHistoryDELETE, userScopedAuth, htok, hver, huid, hbne, jsFalsyStr,
      apply_ite, ite_self]
  · intro h
    simp [chatHistoryDELETE, userScopedAuth, htok, hver, huid, hbne, jsFalsyStr, h]
  · cases hasDb <;>
      simp [userSettingsGET, userScopedAuth, htok, hver, huid, hbne, jsFalsyStr,
        apply_ite, ite_self]
  · intro h hdb
    subst hdb
    simp [userSettingsGET, userScopedAuth, htok, hver, huid, hbne, jsFalsyStr, h]
  · cases hasDb <;>
      simp [userSettingsPOST, userScopedAuth, htok, hver, huid, hbne, jsFalsyStr,
        apply_ite, ite_self]
  · intro h hdb
    subst hdb
    simp [userSettingsPOST, userScopedAuth, htok, hver, huid, hbne, jsFalsyStr, h]

/-- Witness for C9: alice's verified token asking for bob's data. -/
theorem c9_idor_mismatch_rejected_witness :
    (swapHistoryGET
      { bearerToken := some { verifiedUid := some "alice", parts := [], payloadUid := none },
        userId := some "bob", sessionId := none, role := some "user",
        content := some "hi", walletAddress := none } 50) = (403, []) ∧
    (chatHistoryPOST
      { bearerToken := some { verifiedUid := some "alice", parts := [], payloadUid := none },
        userId := some "bob", sessionId := none, role := some "user",
        content := some "hi", walletAddress := none }) = (403, []) ∧
    (userSettingsGET true
      { bearerToken := some { verifiedUid := some "alice", parts := [], payloadUid := none },
        userId := some "bob", sessionId := none, role := some "user",
        content := some "hi", walletAddress := none }) = (403, []) := by
  have h := c9_idor_mismatch_rejected
    { bearerToken := some { verifiedUid := some "alice", parts := [], payloadUid := none },
      userId := some "bob", sessionId := none, role := some "user",
      content := some "hi", walletAddress := none } 50 true
    { verifiedUid := some "alice", parts := [], payloadUid := none } "alice" "bob"
    rfl rfl rfl (by decide)
  exact ⟨h.2.1 (by decide), h.2.2.2.1 (by decide) (by decide) (by decide),
    h.2.2.2.2.2.2.2.1 (by decide) rfl⟩

/-- C10: in POST /api/admin/coins/adjust the positive-amount validation
only guards the gift and deduct actions; a reset request never hits it
and performs the adjustment with amount 0 no matter what amount field the
caller supplied, while gift and deduct with a missing, non-numeric or
non-positive amount are rejected with 400 before any write. -/
theorem c10_reset_ignores_amount (env : AdminEnv) (req : AdjustRequest)
    (tok : Token) (uid fb : String) (n : Nat)
    (htok : req.bearerToken = some tok)
    (hdec : decodeToken tok = some uid)
    (hadm : env.isAdmin uid = true)
    (htarget : req.targetUserId = some n) (hn : n ≠ 0)
    (huser : env.userFirebaseUid n = some fb) :
    (req.action = "reset" →
      postAdjust env req = (200, [CoinAdjustEffect.adjustTestnetCoins uid n "reset" 0])) ∧
    ((req.action = "gift" ∨ req.action = "deduct") →
      (req.amount = none ∨ ∃ a, req.amount = some a ∧ a ≤ 0) →
      postAdjust env req = (400, [])) := by
  constructor
  · intro hact
    simp [postAdjust, htok, hdec, hadm, htarget, hn, huser, hact]
  · rintro hact (hnone | ⟨a, ha, hle⟩)
    · rcases hact with h | h <;>
        simp [postAdjust, htok, hdec, hadm, htarget, hn, huser, h, hnone]
    · rcases hact with h | h <;>
        simp [postAdjust, htok, hdec, hadm, htarget, hn, huser, h, ha, hle]

/-- Witness for C10: a reset with a negative amount field succeeds with
amount 0, and a gift with the same negative amount is rejected. -/
theorem c10_reset_ignores_amount_witness :
    postAdjust
      { isAdmin := fun u => u == "admin1",
        userFirebaseUid := fun k => if k == 7 then some "fb7" else none }
      { bearerToken := some { verifiedUid := some "admin1", parts := [], payloadUid := none },
        targetUserId := some 7, action := "reset", amount := some (-5), note := none } =
      (200, [CoinAdjustEffect.adjustTestnetCoins "admin1" 7 "reset" 0]) ∧
    postAdjust
      { isAdmin := fun u => u == "admin1",
        userFirebaseUid := fun k => if k == 7 then some "fb7" else none }
      { bearerToken := some { verifiedUid := some "admin1", parts := [], payloadUid := none },
        targetUserId := some 7, action := "gift", amount := some (-5), note := none } =
      (400, []) := by
  refine ⟨?_, ?_⟩
  · exact (c10_reset_ignores_amount
      { isAdmin := fun u => u == "admin1",
        userFirebaseUid := fun k => if k == 7 then some "fb7" else none }
      { bearerToken := some { verifiedUid := some "admin1", parts := [], payloadUid := none },
        targetUserId := some 7, action := "reset", amount := some (-5), note := none }
      { verifiedUid := some "admin1", parts := [], payloadUid := none }
      "admin1" "fb7" 7 rfl rfl (by decide) rfl (by decide) (by decide)).1 rfl
  · exact (c10_reset_ignores_amount
      { isAdmin := fun u => u == "admin1",
        userFirebaseUid := fun k => if k == 7 then some "fb7" else none }
      { bearerToken := some { verifiedUid := some "admin1", parts := [], payloadUid := none },
        targetUserId := some 7, action := "gift", amount := some (-5), note := none }
      { verifiedUid := some "admin1", parts := [], payloadUid := none }
      "admin1" "fb7" 7 rfl rfl (by decide) rfl (by decide) (by decide)).2
      (Or.inl rfl) (Or.inr ⟨-5, rfl, by decide⟩)

/-- An admin table in which only admin-uid is an admin, and user 7
exists with a firebase uid. -/
def c4Env : AdminEnv :=
  { isAdmin := fun u => u == "admin-uid",
    userFirebaseUid := fun n => if n == 7 then some "target-firebase-uid" else none }

/-- A token the identity provider rejects, whose unverified payload
claims the uid of a real admin. -/
def c4ForgedToken : Token :=
  { verifiedUid := none, parts := ["header", "payload", "sig"],
    payloadUid := some "admin-uid" }

/-- An adjust request carrying the forged token. -/
def c4ForgedRequest : AdjustRequest :=
  { bearerToken := some c4ForgedToken, targetUserId := some 7, action := "gift",
    amount := some 5, note := none }

/-- C4 counterexample: a token that fails provider verification but whose
unverified payload names an admin uid is not rejected with 401 — the
adjust route decodes the payload without any signature check, adopts the
claimed identity and performs the privileged write under it. -/
theorem c4_counterexample_unverified_token_accepted :
    c4ForgedToken.verifiedUid = none ∧
    decodeToken c4ForgedToken = some "admin-uid" ∧
    postAdjust c4Env c4ForgedRequest =
      (200, [CoinAdjustEffect.adjustTestnetCoins "admin-uid" 7 "gift" 5]) := by
  refine ⟨rfl, rfl, ?_⟩
  rfl

/-- C4 amended: the user-scoped endpoints do reject with 401 every
request whose bearer token fails provider verification, but the admin
coin endpoints fall back to an unverified decode of the JWT payload,
deriving the caller's uid from user_id/sub/uid; they answer 401 only when
that fallback also fails (wrong segment count or no uid in the payload),
and non-admin uids are then refused with 403 by the database admin
check. -/
theorem c4_amended_auth_behavior (req : UserScopedRequest) (areq : AdjustRequest)
    (env : AdminEnv) (tok atok : Token) (limit : Int) (hasDb : Bool)
    (hreq : req.bearerToken = some tok) (hfail : tok.verifiedUid = none)
    (hareq : areq.bearerToken = some atok) (hafail : atok.verifiedUid = none) :
    swapHistoryGET req limit = (401, []) ∧
    chatHistoryPOST req = (401, []) ∧
    chatHistoryDELETE req = (401, []) ∧
    userSettingsGET hasDb req = (401, []) ∧
    userSettingsPOST hasDb req = (401, []) ∧
    decodeToken atok = (if atok.parts.length = 3 then atok.payloadUid else none) ∧
    ((atok.parts.length ≠ 3 ∨ atok.payloadUid = none) →
      postAdjust env areq = (401, [])) := by
  refine ⟨?_, ?_, ?_, ?_, ?_, ?_, ?_⟩
  · simp [swapHistoryGET, userScopedAuth, hreq, hfail]
  · simp [chatHistoryPOST, userScopedAuth, hreq, hfail]
  · simp [chatHistoryDELETE, userScopedAuth, hreq, hfail]
  · simp [userSettingsGET, userScopedAuth, hreq, hfail]
  · simp [userSettingsPOST, userScopedAuth, hreq, hfail]
  · by_cases h3 : atok.parts.length = 3 <;>
      simp [decodeToken, hafail, h3]
  · rintro (h3 | hnouid)
    · simp [postAdjust, hareq, decodeToken, hafail, h3]
    · by_cases h3 : atok.parts.length = 3 <;>
        simp [postAdjust, hareq, decodeToken, hafail, h3, hnouid]

/-- Witness for C4 amended: a concrete unverifiable token is turned away
with 401 by the swap-history route, and an unverifiable two-segment token
is turned away with 401 by the adjust route. -/
theorem c4_amended_auth_behavior_witness :
    swapHistoryGET
      { bearerToken := some { verifiedUid := none, parts := ["a", "b"], payloadUid := none },
        userId := some "bob", sessionId := none, role := none, content := none,
        walletAddress := none } 50 = (401, []) ∧
    postAdjust c4Env
      { bearerToken := some { verifiedUid := none, parts := ["a", "b"], payloadUid := none },
        targetUserId := some 7, action := "gift", amount := some 5, note := none } =
      (401, []) := by
  have h := c4_amended_auth_behavior
    { bearerToken := some { verifiedUid := none, parts := ["a", "b"], payloadUid := none },
      userId := some "bob", sessionId := none, role := none, content := none,
      walletAddress := none }
    { bearerToken := some { verifiedUid := none, parts := ["a", "b"], payloadUid := none },
      targetUserId := some 7, action := "gift", amount := some 5, note := none }
    c4Env
    { verifiedUid := none, parts := ["a", "b"], payloadUid := none }
    { verifiedUid := none, parts := ["a", "b"], payloadUid := none }
    50 true rfl rfl rfl rfl
  exact ⟨h.1, h.2.2.2.2.2.2 (Or.inl (by decide))⟩

/-- C1: when two scheduler instances run the claim transaction over the
same single due plan (the database serializes the two transactions; the
second runs within the lock window), they never claim the same row: the
first claims the plan and the second claims nothing, so executing all
claims inserts exactly one Order and increments the plan's
orders_executed by exactly one. -/
theorem c1_dca_exactly_once (env : DCAEnv) (db : DB) (s : DCASchedule)
    (user : UserRow) (wallet : String) (quote : QuoteResult) (order : OrderResult)
    (nowA nowB : Time)
    (hplans : db.dcaSchedules = [s])
    (hactive : s.isActive = 1)
    (hdue : s.nextExecutionAt ≤ nowA)
    (_horder : nowA ≤ nowB)
    (hwin : nowB < nowA + MAX_PROCESSING_TIME_MINUTES)
    (huser : env.getUser s.telegramId = some user)
    (hwallet : user.walletAddress = some wallet)
    (hquote : env.createQuote s.fromAsset s.fromNetwork s.toAsset s.toNetwork
      s.amountPerOrder = some quote)
    (hqerr : quote.error = none)
    (horderc : env.createOrder quote.id wallet = some order)
    (hoid : order.id ≠ "") :
    (runTwoInstances env db nowA nowB).2.1 = [s] ∧
    (runTwoInstances env db nowA nowB).2.2 = [] ∧
    (runTwoInstances env db nowA nowB).1.orders.length = db.orders.length + 1 ∧
    (runTwoInstances env db nowA nowB).1.dcaSchedules =
      [{ s with nextExecutionAt := nowA + MAX_PROCESSING_TIME_MINUTES,
                ordersExecuted := s.ordersExecuted + 1 }] := by
  have hdueA : dueFilter nowA s = true := by
    simp [dueFilter, hactive, hdue]
  have hA : processSchedulesClaimTx db nowA =
      ({ db with dcaSchedules :=
          [{ s with nextExecutionAt := nowA + MAX_PROCESSING_TIME_MINUTES }] }, [s]) := by
    simp [processSchedulesClaimTx, hplans, hdueA]
  have hnotdue : ¬ (nowA + MAX_PROCESSING_TIME_MINUTES ≤ nowB) := Int.not_le.mpr hwin
  have hdueB : dueFilter nowB
      { s with nextExecutionAt := nowA + MAX_PROCESSING_TIME_MINUTES } = false := by
    simp [dueFilter, hnotdue]
  have hB : processSchedulesClaimTx
      { db with dcaSchedules :=
          [{ s with nextExecutionAt := nowA + MAX_PROCESSING_TIME_MINUTES }] } nowB =
      ({ db with dcaSchedules :=
          [{ s with nextExecutionAt := nowA + MAX_PROCESSING_TIME_MINUTES }] }, []) := by
    simp [processSchedulesClaimTx, hdueB]
  have hoidb : (order.id == "") = false := by
    simpa [beq_iff_eq] using hoid
  have hexec : executeSchedule env
      { db with dcaSchedules :=
          [{ s with nextExecutionAt := nowA + MAX_PROCESSING_TIME_MINUTES }] } s nowB =
      executeScheduleTx
        { db with dcaSchedules :=
            [{ s with nextExecutionAt := nowA + MAX_PROCESSING_TIME_MINUTES }] }
        s quote order := by
    simp [executeSchedule, huser, hwallet, hquote, hqerr, horderc, hoidb]
  refine ⟨?_, ?_, ?_, ?_⟩ <;>
    simp [runTwoInstances, hA, hB, hexec, executeScheduleTx, apply_ite, ite_self]

/-- The due 24-hour test plan used by the concrete DCA scenarios. -/
def dcaTestSchedule : DCASchedule :=
  { id := 1, telegramId := 42, fromAsset := "USDC", fromNetwork := "ethereum",
    toAsset := "BTC", toNetwork := "bitcoin", amountPerOrder := "50",
    intervalHours := 24, nextExecutionAt := 0, isActive := 1, ordersExecuted := 3 }

/-- A database holding only the due test plan. -/
def dcaTestDB : DB :=
  { dcaSchedules := [dcaTestSchedule], orders := [], watchedOrders := [] }

/-- Collaborators for which the execution succeeds: the user exists with
a wallet, the quote is granted without error, and the order is created. -/
def dcaTestEnv : DCAEnv :=
  { getUser := fun n =>
      if n == 42 then some { telegramId := 42, walletAddress := some "0xwallet" } else none,
    createQuote := fun _ _ _ _ _ =>
      some { id := "q1", settleAmount := "0.0005", error := none },
    createOrder := fun _ _ =>
      some { id := "shift1", depositAddress := "0xdeposit", depositMemo := none } }

/-- Witness for C1 at the concrete due plan, both instances claiming at
time 0. -/
theorem c1_dca_exactly_once_witness :
    (runTwoInstances dcaTestEnv dcaTestDB 0 0).2.1 = [dcaTestSchedule] ∧
    (runTwoInstances dcaTestEnv dcaTestDB 0 0).2.2 = [] ∧
    (runTwoInstances dcaTestEnv dcaTestDB 0 0).1.orders.length =
      dcaTestDB.orders.length + 1 ∧
    (runTwoInstances dcaTestEnv dcaTestDB 0 0).1.dcaSchedules =
      [{ dcaTestSchedule with
          nextExecutionAt := 0 + MAX_PROCESSING_TIME_MINUTES,
          ordersExecuted := dcaTestSchedule.ordersExecuted + 1 }] :=
  c1_dca_exactly_once dcaTestEnv dcaTestDB dcaTestSchedule
    { telegramId := 42, walletAddress := some "0xwallet" } "0xwallet"
    { id := "q1", settleAmount := "0.0005", error := none }
    { id := "shift1", depositAddress := "0xdeposit", depositMemo := none }
    0 0 rfl rfl (by decide) (by decide) (by decide) rfl rfl rfl rfl rfl (by decide)

/-- The final database after one scheduler instance claims the due test
plan at time 0 and executes it successfully. -/
def c2Result : DB :=
  (processSchedulesClaimTx dcaTestDB 0).2.foldl
    (fun d t => executeSchedule dcaTestEnv d t 0) (processSchedulesClaimTx dcaTestDB 0).1

/-- C2: evaluating the scheduler at the failing input.  The success
transaction performs three of the four claimed writes — it inserts the
Order, inserts the WatchedOrder and increments orders_executed — but not
the fourth: next_execution_at stays at the 10-minute lock sentinel
instead of being set to now + interval (0 + 24h = 1440 minutes), so the
24-hour plan falls due again 10 minutes after a successful execution. -/
theorem c2_success_tx_misses_reschedule :
    (processSchedulesClaimTx dcaTestDB 0).2 = [dcaTestSchedule] ∧
    c2Result.orders.length = 1 ∧
    c2Result.watchedOrders.map (fun w => w.sideshiftOrderId) = ["shift1"] ∧
    c2Result.dcaSchedules =
      [{ dcaTestSchedule with nextExecutionAt := 10, ordersExecuted := 4 }] ∧
    (10 : Int) ≠ 0 + 60 * dcaTestSchedule.intervalHours := by
  refine ⟨?_, ?_, ?_, ?_, ?_⟩ <;> decide

end SwapSmith
